import Mathlib

/-!
Verification of the per-turn decision pipeline of the Agent-Voyage repository
(`src/agent/graph.py`): intent dispatch, criteria extraction merge, catalog
matching and response selection.  The external language-model collaborators
(criteria extraction, response generation) are modelled as oracle inputs: an
`Option` value, `none` standing for a raised exception.  Python dictionaries
with the six fixed criterion keys become records; tri-state values become
`Option Bool` (`none` = Python `None`).
-/

/-! ## Data model -/

/-- The closed set of six criterion keys (`plage`, `montagne`, `ville`,
`sport`, `detente`, `acces_handicap` in the Python dictionaries). -/
inductive Critere : Type
  | plage
  | montagne
  | ville
  | sport
  | detente
  | acces_handicap
deriving DecidableEq, Repr

/-- The tri-state criteria dictionary of `State.criteres` and of the Pydantic
`Criteres` schema: each of the six keys maps to `True` / `False` / `None`. -/
structure Criteres where
  plage : Option Bool
  montagne : Option Bool
  ville : Option Bool
  sport : Option Bool
  detente : Option Bool
  acces_handicap : Option Bool
deriving DecidableEq, Repr

/-- Dictionary lookup `criteres[key]`. -/
def Criteres.get (c : Criteres) : Critere → Option Bool
  | .plage => c.plage
  | .montagne => c.montagne
  | .ville => c.ville
  | .sport => c.sport
  | .detente => c.detente
  | .acces_handicap => c.acces_handicap

/-- The default criteria dictionary built by the `State` dataclass factory:
all six values `None`. -/
def allUnknown : Criteres :=
  { plage := none, montagne := none, ville := none,
    sport := none, detente := none, acces_handicap := none }

/-- Python `any(v is not None for v in criteres.values())`. -/
def anySome (c : Criteres) : Bool :=
  c.plage.isSome || c.montagne.isSome || c.ville.isSome ||
    c.sport.isSome || c.detente.isSome || c.acces_handicap.isSome

/-- One trip offer of the `VOYAGES` catalog.  Every catalog entry carries all
six boolean criterion keys, so the `critere in voyage` membership guard of
`match_voyage` is always satisfied and is inherent in the record type. -/
structure Voyage where
  id : String
  nom : String
  description : String
  plage : Bool
  montagne : Bool
  ville : Bool
  sport : Bool
  detente : Bool
  acces_handicap : Bool
  points_forts : List String
  prix_indicatif : String
  meilleure_periode : String
deriving DecidableEq, Repr

/-- Offer flag lookup `voyage[critere]`. -/
def Voyage.flag (v : Voyage) : Critere → Bool
  | .plage => v.plage
  | .montagne => v.montagne
  | .ville => v.ville
  | .sport => v.sport
  | .detente => v.detente
  | .acces_handicap => v.acces_handicap

/-- The fixed five-offer catalog `VOYAGES` of `src/agent/graph.py`, in source
order. -/
def VOYAGES : List Voyage :=
  [ { id := "LOZ-001",
      nom := "🥾 Randonnée camping en Lozère",
      description := "Aventure sportive au cœur de la nature sauvage des Cévennes",
      plage := false, montagne := true, ville := false,
      sport := true, detente := false, acces_handicap := false,
      points_forts := ["Randonnées guidées quotidiennes",
        "Nuits en bivouac sous les étoiles",
        "Faune et flore exceptionnelles"],
      prix_indicatif := "450€/semaine",
      meilleure_periode := "Mai-Septembre" },
    { id := "CHAM-SPA",
      nom := "⭐ 5 étoiles à Chamonix - Option Spa & Fondue",
      description := "Luxe absolu et détente au pied du Mont-Blanc",
      plage := false, montagne := true, ville := false,
      sport := false, detente := true, acces_handicap := true,
      points_forts := ["Spa panoramique avec vue sur les glaciers",
        "Restaurant gastronomique savoyard",
        "Chambres adaptées PMR avec balcon"],
      prix_indicatif := "2500€/semaine",
      meilleure_periode := "Toute l\x27année" },
    { id := "CHAM-SKI",
      nom := "🎿 5 étoiles à Chamonix - Option Ski",
      description := "Sport et luxe dans la capitale mondiale de l\x27alpinisme",
      plage := false, montagne := true, ville := false,
      sport := true, detente := false, acces_handicap := true,
      points_forts := ["Accès direct aux pistes mythiques",
        "Matériel haut de gamme inclus",
        "Cours avec moniteurs ESF"],
      prix_indicatif := "3000€/semaine",
      meilleure_periode := "Décembre-Avril" },
    { id := "PAL-001",
      nom := "🏖️ Palavas de paillotes en paillotes",
      description := "Farniente urbain sur la Méditerranée avec ambiance festive",
      plage := true, montagne := false, ville := true,
      sport := false, detente := true, acces_handicap := true,
      points_forts := ["Plages privées accessibles PMR",
        "Restaurants de fruits de mer",
        "Animations nocturnes en bord de mer"],
      prix_indicatif := "800€/semaine",
      meilleure_periode := "Mai-Octobre" },
    { id := "CAMP-LUX",
      nom := "🌿 5 étoiles en rase campagne",
      description := "Havre de paix luxueux dans la nature préservée",
      plage := false, montagne := false, ville := false,
      sport := false, detente := true, acces_handicap := false,
      points_forts := ["Calme absolu et déconnexion totale",
        "Piscine naturelle et jardins",
        "Cuisine bio du potager"],
      prix_indicatif := "1800€/semaine",
      meilleure_periode := "Avril-Octobre" } ]

/-! ## Text utilities

The Python detectors all start from `message.lower().strip()`.  We model the
normalised text as a `List Char`.  `Char.lower` below lowers the ASCII range,
which agrees with Python `str.lower
` on every character of the keyword sets and of the inputs used in the
theorems; Python additionally lowers non-ASCII uppercase letters. -/

/-- ASCII lowering of one character (agrees with Python `str.lower` on the
ASCII range). -/
def lowerChar (c : Char) : Char :=
  if 65 ≤ c.toNat && c.toNat ≤ 90 then Char.ofNat (c.toNat + 32) else c

/-- Whitespace test used by `strip` (space, tab, newline, carriage return). -/
def isSpaceChar (c : Char) : Bool :=
  c == ' ' || c == '\t' || c == '\n' || c == '\r'

/-- Python `message.lower().strip()` as a character list. -/
def lowerStrip (message : String) : List Char :=
  ((message.data.map lowerChar).dropWhile isSpaceChar).reverse.dropWhile isSpaceChar |>.reverse

/-- `charsLead needle hay` holds when `needle` is an initial run of `hay`. -/
def charsLead : List Char → List Char → Bool
  | [], _ => true
  | _ :: _, [] => false
  | a :: as, b :: bs => a == b && charsLead as bs

/-- Python substring test `needle in hay`. -/
def charsContains (hay needle : List Char) : Bool :=
  charsLead needle hay ||
    match hay with
    | [] => false
    | _ :: rest => charsContains rest needle

/-- Substring test against a string keyword. -/
def containsWord (m : List Char) (w : String) : Bool :=
  charsContains m w.data

/-! ## Intent detectors (`src/agent/graph.py`) -/

/-- The closed greeting / politeness phrase set of `detect_salutation`. -/
def salutations : List String :=
  ["bonjour", "salut", "hello", "bonsoir", "coucou", "hey",
   "bonne journée", "au revoir", "bye", "à bientôt", "merci",
   "s\x27il vous plaît", "svp", "stp"]

/-- `detect_salutation`: the lowered, stripped message is shorter than 30
characters and contains some phrase of `salutations` as a substring. -/
def detect_salutation (message : String) : Bool :=
  let m := lowerStrip message
  decide (m.length < 30) && salutations.any (fun s => containsWord m s)

/-- Price keywords of `detect_question_info`. -/
def motsPrix : List String :=
  ["prix", "coût", "cout", "tarif", "budget", "combien",
   "cher", "€", "euro", "payer", "coute", "valeur",
   "quel prix", "quels prix", "le prix", "les prix"]

/-- Date keywords of `detect_question_info`. -/
def motsDate : List String :=
  ["quand", "date", "période", "saison", "mois",
   "disponible", "disponibilité", "partir quand"]

/-- Booking keywords of `detect_question_info`. -/
def motsResa : List String :=
  ["réserver", "réservation", "comment faire", "procédure",
   "inscription", "booking", "commander"]

/-- General-information keywords of `detect_question_info`. -/
def motsInfo : List String :=
  ["info", "information", "détail", "précision",
   "savoir plus", "renseigner", "renseignement"]

/-- `detect_question_info`: price before date before booking before general
information; returns the empty string when no keyword set matches. -/
def detect_question_info (message : String) : String :=
  let m := lowerStrip message
  if motsPrix.any (fun w => containsWord m w) then "prix"
  else if motsDate.any (fun w => containsWord m w) then "date"
  else if motsResa.any (fun w => containsWord m w) then "reservation"
  else if motsInfo.any (fun w => containsWord m w) then "info"
  else ""

/-- Vowel test `c in 'aeiouy'`. -/
def estVoyelle (c : Char) : Bool :=
  c == 'a' || c == 'e' || c == 'i' || c == 'o' || c == 'u' || c == 'y'

/-- Vowel count of the normalised message. -/
def countVoyelles (l : List Char) : Nat :=
  (l.filter estVoyelle).length

/-- The repeated-character scan of `detect_hors_contexte`: three equal
consecutive characters, none of the exception characters `e`, `l`, `o`. -/
def hasTripleRun : List Char → Bool
  | a :: b :: c :: rest =>
      (a == b && b == c && !(a == 'e' || a == 'l' || a == 'o')) ||
        hasTripleRun (b :: c :: rest)
  | _ => false

/-- Travel-vocabulary keyword list of `detect_hors_contexte`. -/
def motsVoyage : List String :=
  ["voyage", "vacances", "séjour", "partir", "destination", "week-end", "weekend",
   "plage", "mer", "montagne", "ville", "campagne", "nature", "ski", "sport",
   "détente", "repos", "spa", "hotel", "hôtel", "camping", "randonnée",
   "soleil", "découvrir", "visiter", "explorer", "tourisme", "escapade"]

/-- `detect_hors_contexte`.  The Python vowel-ratio test is
`voyelles < len(m) * 0.2` with `0.2` an IEEE double slightly above `1/5`;
for every message length below `2 ^ 50` that floating comparison coincides
with the exact rational test `5 * voyelles < len(m)` used here (at
`5 * voyelles = len` the product `len * 0.2` rounds back to the integer
`voyelles`, and away from that boundary the two sides differ by at least
`1/5`, far above the rounding error).  Python `str.isalpha` is modelled by
the ASCII `Char.isAlpha`. -/
def detect_hors_contexte (message : String) : Bool :=
  let m := lowerStrip message
  let voyelles := countVoyelles m
  if decide (5 < m.length) && decide (5 * voyelles < m.length) then true
  else if hasTripleRun m then true
  else if decide (m.length < 15) && !(motsVoyage.any (fun w => containsWord m w)) then
    if !(m.any Char.isAlpha) then true
    else if decide (3 < m.length) && decide (voyelles < 2) then true
    else false
  else false

/-! ## Catalog matcher -/

/-- One criterion comparison inside the `match_voyage` loop: a `None` wish is
skipped, a boolean wish must equal the offer flag. -/
def matchCritere (valeurVoyage : Bool) (valeurSouhaitee : Option Bool) : Bool :=
  match valeurSouhaitee with
  | none => true
  | some b => valeurVoyage == b

/-- `match_voyage(voyage, criteres)`: the loop over the six dictionary keys
in insertion order, returning `False` on the first expressed criterion whose
offer flag differs. -/
def match_voyage (voyage : Voyage) (criteres : Criteres) : Bool :=
  matchCritere voyage.plage criteres.plage &&
  matchCritere voyage.montagne criteres.montagne &&
  matchCritere voyage.ville criteres.ville &&
  matchCritere voyage.sport criteres.sport &&
  matchCritere voyage.detente criteres.detente &&
  matchCritere voyage.acces_handicap criteres.acces_handicap

/-- The `PHASE 5` search loop: `for voyage in VOYAGES: if match_voyage(...):
voyages_matches.append(voyage)`. -/
def voyages_matches (criteres : Criteres) : List Voyage :=
  VOYAGES.foldl (fun acc v => if match_voyage v criteres then acc ++ [v] else acc) []

/-! ## Response texts (the deterministic strings of `process_message`) -/

/-- Phase 1 reply when model initialisation raises. -/
def MSG_ERREUR_TECHNIQUE : String :=
  "Désolé, je rencontre un problème technique. Veuillez vérifier la configuration."

/-- Phase 2 fallback greeting reply (the bare `except` branch). -/
def FALLBACK_SALUTATION : String :=
  "Bonjour ! 👋 Je suis votre conseiller voyage personnel. Je peux vous aider à trouver le séjour idéal : plage, montagne, détente ou sport... Que recherchez-vous ?"

/-- Phase 2.5 fixed off-topic reply.  It names five criteria (plage,
montagne, ville, sport, détente); accessibility is not mentioned. -/
def MSG_HORS_CONTEXTE : String :=
  "Je suis désolé, je suis un conseiller voyage et je ne comprends pas votre message. 🤔 Je peux vous aider à trouver des séjours : plage 🏖️, montagne 🏔️, ville 🏙️, sport ⚽ ou détente 🧘. Que recherchez-vous pour vos prochaines vacances ?"

/-- Phase 4 fixed reply of the (unreachable) second off-topic re-check. -/
def MSG_HORS_CONTEXTE_2 : String :=
  "Je suis un conseiller voyage spécialisé et votre message ne semble pas concerner une recherche de voyage. 🤷 Je peux vous aider à trouver : des séjours à la plage 🏖️, en montagne 🏔️, en ville 🏙️, sportifs ⚽ ou détente 🧘. Qu\x27est-ce qui vous ferait plaisir ?"

/-- Phase 4 fixed clarification template.  In the source the `try` body of
this branch evaluates `PROMPT_CLARIFICATION.format(message=message)` where
the name `PROMPT_CLARIFICATION` is defined nowhere in the module (only
`PROMPT_INCOMPREHENSIBLE` exists), so a `NameError` is raised before any
collaborator call and the bare `except` always installs this template. -/
def FALLBACK_CLARIFICATION : String :=
  "Je ne suis pas sûr de comprendre votre demande de voyage. 🤔 Pourriez-vous préciser ce que vous recherchez ? Par exemple : mer, montagne, ville, sport ou détente ?"

/-- One line of the price reply (`prix_indicatif` is present on every
catalog record, so the Python `dict.get` default never fires). -/
def prixLine (v : Voyage) : String :=
  "• " ++ v.nom ++ " : **" ++ v.prix_indicatif ++ "**"

/-- Price reply over the first three offers under consideration. -/
def msgPrixAvecVoyages (vs : List Voyage) : String :=
  "Voici les tarifs indicatifs de nos voyages :\n\n" ++
    String.intercalate "\n" ((vs.take 3).map prixLine) ++
    "\n\n💡 Prix par personne, base double. Variables selon saison et options.\n📞 Pour un devis précis : 0800 VOYAGE (gratuit)\n📧 Email : reservations@votreagence.com"

/-- One line of the date reply. -/
def dateLine (v : Voyage) : String :=
  "• " ++ v.nom ++ " : **" ++ v.meilleure_periode ++ "**"

/-- Date reply over the first three offers under consideration. -/
def msgDatesAvecVoyages (vs : List Voyage) : String :=
  "Les meilleures périodes pour voyager :\n\n" ++
    String.intercalate "\n" ((vs.take 3).map dateLine) ++
    "\n\n📅 Ces périodes offrent les meilleures conditions météo et tarifaires.\nContactez-nous pour vérifier les disponibilités sur vos dates !"

/-- Fixed booking reply. -/
def MSG_RESA : String :=
  "**Réserver votre voyage, c\x27est simple !** ✈️\n\n3 moyens de nous contacter :\n📞 **0800 VOYAGE** (appel gratuit)\n📧 **reservations@votreagence.com**\n🌐 **www.votreagence.com**\n\nNotre équipe s\x27occupe de tout :\n✓ Vérification des disponibilités\n✓ Personnalisation de votre séjour\n✓ Réservation et paiement sécurisé\n\nQuel voyage vous tente le plus ?"

/-- Fixed general-information reply when offers are held in memory. -/
def MSG_INFO_GENERALE : String :=
  "Pour tous les détails sur nos voyages, notre équipe est là pour vous !\n\n**Contactez-nous :**\n📞 0800 VOYAGE (gratuit)\n📧 reservations@votreagence.com\n\nNous pourrons discuter options, assurances, transferts...\nY a-t-il un voyage qui vous attire particulièrement ?"

/-- Fixed price reply when no offer is held in memory. -/
def MSG_PRIX_SANS_VOYAGES : String :=
  "Pour vous donner les prix, j\x27ai besoin de savoir quel type de voyage vous intéresse ! 💰\n\nNos tarifs varient selon vos préférences :\n• **Économique** : Camping Lozère (~450€/sem)\n• **Moyen** : Palavas plage (~800€/sem)\n• **Luxe** : Chamonix 5⭐ (2500-3000€/sem)\n\nDites-moi : plage 🏖️, montagne 🏔️, ou détente 🧘 ?"

/-- Fixed information reply when no offer is held in memory. -/
def MSG_INFO_SANS_VOYAGES : String :=
  "Je serais ravi de vous donner ces informations ! 📋\n\nD\x27abord, aidez-moi à identifier le voyage qui vous correspond.\nQue préférez-vous ?\n\n• Mer & Plage 🏖️\n• Montagne & Nature 🏔️\n• Ville & Culture 🏙️\n• Sport & Aventure ⚽\n• Repos & Bien-être 🧘\n\nUne fois votre choix fait, je vous donnerai tous les détails !"

/-- Phase 6 deterministic fallback reply when no offer matched. -/
def FALLBACK_SANS_VOYAGES : String :=
  "Je n\x27ai pas trouvé de voyage correspondant exactement à vos critères. Seriez-vous flexible sur certains points ? Nos meilleures offres incluent des séjours en montagne, à la plage et en ville. 🌍"

/-- Phase 6 deterministic fallback reply built from the matched offers'
names (first three) and their count. -/
def fallbackAvecVoyages (ms : List Voyage) : String :=
  "J\x27ai trouvé " ++ Nat.repr ms.length ++ " voyage(s) parfait(s) pour vous ! " ++
    String.intercalate ", " ((ms.take 3).map (fun v => v.nom)) ++
    ". Lequel vous attire le plus ? 🌟"

/-! ## Turn state and oracle inputs -/

/-- The LangGraph `State` dataclass of `src/agent/graph.py` (the `metadata`
timestamp dictionary, irrelevant to the decision logic, is omitted). -/
structure State where
  dernier_message_utilisateur : String := ""
  dernier_message_ia : String := ""
  injection : Bool := false
  erreur_ia : Bool := false
  done : Bool := false
  criteres : Criteres := allUnknown
  voyages_proposes : List Voyage := []
  derniers_voyages_proposes : List Voyage := []
deriving DecidableEq, Repr

/-- Outcomes of the external collaborator calls made by one turn: model
initialisation (phase 1), the structured-criteria extraction (phase 3), the
greeting generation (phase 2) and the response generation (phase 6).  A
`none` stands for a raised exception / failure. -/
structure Oracles where
  initOk : Bool
  extraction : Option Criteres
  genSal : Option String
  gen6 : Option String
deriving DecidableEq, Repr

/-- Phase 3 merge `state.criteres[key] = value` for each extracted non-`None`
value: the extracted value wins, an unextracted key keeps the prior value. -/
def mergeVal (prior extrait : Option Bool) : Option Bool :=
  match extrait with
  | some b => some b
  | none => prior

/-- The whole phase 3 dictionary update applied to the prior criteria. -/
def applyExtraction (prior extraits : Criteres) : Criteres :=
  { plage := mergeVal prior.plage extraits.plage,
    montagne := mergeVal prior.montagne extraits.montagne,
    ville := mergeVal prior.ville extraits.ville,
    sport := mergeVal prior.sport extraits.sport,
    detente := mergeVal prior.detente extraits.detente,
    acces_handicap := mergeVal prior.acces_handicap extraits.acces_handicap }

/-- Phase 3 of `process_message`: guarded by a non-empty message that is not
off-topic; on extraction success merges the response into `state.criteres`
and reports whether any criterion was extracted; on failure sets
`erreur_ia`.  Returns `(criteres, criteres_extraits, erreur_ia)`. -/
def phase3 (o : Oracles) (s : State) : Criteres × Bool × Bool :=
  if (s.dernier_message_utilisateur != "") &&
      !(detect_hors_contexte s.dernier_message_utilisateur) then
    match o.extraction with
    | some ext => (applyExtraction s.criteres ext, anySome ext, s.erreur_ia)
    | none => (s.criteres, false, true)
  else (s.criteres, false, s.erreur_ia)

/-- Phase 2.3, the practical-question branch: picks the offers to present
(current proposals, else last proposals, else a fresh criteria search when
some criterion is known) and emits one of the canned information replies.
It never mutates the criteria or the proposal lists. -/
def infoBranch (questionType : String) (s : State) : State :=
  let considere :=
    if s.voyages_proposes.isEmpty then s.derniers_voyages_proposes
    else s.voyages_proposes
  let considere :=
    if considere.isEmpty && anySome s.criteres then voyages_matches s.criteres
    else considere
  if !considere.isEmpty then
    if questionType == "prix" then
      { s with dernier_message_ia := msgPrixAvecVoyages considere, done := true }
    else if questionType == "date" then
      { s with dernier_message_ia := msgDatesAvecVoyages considere, done := true }
    else if questionType == "reservation" then
      { s with dernier_message_ia := MSG_RESA, done := true }
    else
      { s with dernier_message_ia := MSG_INFO_GENERALE, done := true }
  else
    if questionType == "prix" then
      { s with dernier_message_ia := MSG_PRIX_SANS_VOYAGES, done := true }
    else
      { s with dernier_message_ia := MSG_INFO_SANS_VOYAGES, done := true }

/-- Phases 5 and 6: store the full filtered match list in
`voyages_proposes`, save it in `derniers_voyages_proposes` when non-empty,
then set the reply from the generation collaborator or, on failure, from the
deterministic local template of the matching (non-)empty case. -/
def phase56 (o : Oracles) (s : State) (criteres2 : Criteres) (erreur2 : Bool) : State :=
  let ms := voyages_matches criteres2
  let derniers := if ms.isEmpty then s.derniers_voyages_proposes else ms
  let reponse :=
    match o.gen6 with
    | some r => r
    | none => if ms.isEmpty then FALLBACK_SANS_VOYAGES else fallbackAvecVoyages ms
  { s with criteres := criteres2, erreur_ia := erreur2,
           voyages_proposes := ms, derniers_voyages_proposes := derniers,
           dernier_message_ia := reponse, done := true }

/-- Phases 3 to 6 (everything after the pre-extraction branches): run the
extraction merge; when nothing was extracted this turn and no criterion is
known, answer with the off-topic re-check (dead on this path) or the
clarification template; otherwise match and respond. -/
def suiteExtraction (o : Oracles) (s : State) : State :=
  let p := phase3 o s
  if !p.2.1 && !(anySome p.1) then
    if detect_hors_contexte s.dernier_message_utilisateur then
      { s with criteres := p.1, erreur_ia := p.2.2,
               dernier_message_ia := MSG_HORS_CONTEXTE_2, done := true }
    else
      { s with criteres := p.1, erreur_ia := p.2.2,
               dernier_message_ia := FALLBACK_CLARIFICATION, done := true }
  else
    phase56 o s p.1 p.2.2

/-- The single LangGraph node `process_message`, with the collaborator
outcomes passed as oracles.  Branch order is exactly the source order:
initialisation failure, greeting, practical question, off-topic, then the
extraction pipeline. -/
def process_message (o : Oracles) (s : State) : State :=
  if !o.initOk then
    { s with erreur_ia := true, dernier_message_ia := MSG_ERREUR_TECHNIQUE, done := true }
  else if detect_salutation s.dernier_message_utilisateur then
    { s with
        dernier_message_ia :=
          (match o.genSal with
           | some r => r
           | none => FALLBACK_SALUTATION),
        done := true }
  else if detect_question_info s.dernier_message_utilisateur != "" then
    infoBranch (detect_question_info s.dernier_message_utilisateur) s
  else if detect_hors_contexte s.dernier_message_utilisateur then
    { s with dernier_message_ia := MSG_HORS_CONTEXTE, done := true }
  else
    suiteExtraction o s

/-- The branch selected by the pre-extraction dispatch. -/
inductive Branch : Type
  | erreurInit
  | salutationB
  | questionInfoB (t : String)
  | horsContexteB
  | extractionSuite
deriving DecidableEq, Repr

/-- The pre-extraction dispatch of `process_message`, in source order. -/
def dispatch (initOk : Bool) (message : String) : Branch :=
  if !initOk then .erreurInit
  else if detect_salutation message then .salutationB
  else if detect_question_info message != "" then .questionInfoB (detect_question_info message)
  else if detect_hors_contexte message then .horsContexteB
  else .extractionSuite

/-! ## Helper lemmas -/

lemma charsLead_iff (n : List Char) :
    ∀ h : List Char, charsLead n h = true ↔ ∃ rest, h = n ++ rest := by
  induction n with
  | nil => intro h; simp [charsLead]
  | cons a as ih =>
      intro h
      cases h with
      | nil => simp [charsLead]
      | cons b bs =>
          simp only [charsLead, Bool.and_eq_true, beq_iff_eq, ih, List.cons_append,
            List.cons.injEq]
          constructor
          · rintro ⟨rfl, rest, rfl⟩
            exact ⟨rest, rfl, rfl⟩
          · rintro ⟨rest, rfl, rfl⟩
            exact ⟨rfl, rest, rfl⟩

lemma charsContains_iff (h n : List Char) :
    charsContains h n = true ↔ ∃ pre post, h = pre ++ n ++ post := by
  induction h with
  | nil =>
      simp only [charsContains, Bool.or_false, charsLead_iff]
      constructor
      · rintro ⟨rest, hr⟩
        rcases List.append_eq_nil.mp hr.symm with ⟨hn, hrest⟩
        exact ⟨[], [], by simp [hn]⟩
      · rintro ⟨pre, post, hp⟩
        rcases List.append_eq_nil.mp hp.symm with ⟨hpre, hpost⟩
        rcases List.append_eq_nil.mp hpre with ⟨hpre2, hn⟩
        exact ⟨[], by simp [hn]⟩
  | cons a rest ih =>
      rw [charsContains]
      simp only [Bool.or_eq_true, charsLead_iff, ih]
      constructor
      · rintro (⟨r, hr⟩ | ⟨pre, post, hp⟩)
        · exact ⟨[], r, by simpa using hr⟩
        · exact ⟨a :: pre, post, by simp [hp]⟩
      · rintro ⟨pre, post, hp⟩
        cases pre with
        | nil => exact Or.inl ⟨post, by simpa using hp⟩
        | cons x pre2 =>
            have hrest : rest = pre2 ++ n ++ post := by
              simpa using congrArg (fun l => l.tail) hp
            exact Or.inr ⟨pre2, post, hrest⟩

lemma matchCritere_iff (f : Bool) (w : Option Bool) :
    matchCritere f w = true ↔ ∀ b : Bool, w = some b → f = b := by
  cases w with
  | none => simp [matchCritere]
  | some a => simp [matchCritere]

lemma match_voyage_iff (v : Voyage) (c : Criteres) :
    match_voyage v c = true ↔
      ∀ k : Critere, matchCritere (v.flag k) (c.get k) = true := by
  unfold match_voyage
  simp only [Bool.and_eq_true]
  constructor
  · intro h k
    rcases h with ⟨⟨⟨⟨⟨h1, h2⟩, h3⟩, h4⟩, h5⟩, h6⟩
    cases k <;> assumption
  · intro h
    exact ⟨⟨⟨⟨⟨h .plage, h .montagne⟩, h .ville⟩, h .sport⟩, h .detente⟩, h .acces_handicap⟩

lemma foldl_snoc_filter {α : Type} (p : α → Bool) :
    ∀ (l acc : List α),
      l.foldl (fun a v => if p v then a ++ [v] else a) acc = acc ++ l.filter p := by
  intro l
  induction l with
  | nil => intro acc; simp
  | cons x xs ih =>
      intro acc
      cases hx : p x <;>
        simp [List.filter_cons, hx, ih, List.append_assoc]

lemma filter_head_eq_find {α : Type} (p : α → Bool) :
    ∀ l : List α, (l.filter p).head? = l.find? p := by
  intro l
  induction l with
  | nil => rfl
  | cons x xs ih =>
      cases hx : p x <;> simp [List.filter_cons, List.find?, hx, ih]

lemma catalogNodup : VOYAGES.Nodup := by decide

lemma matches_eq_filter (c : Criteres) :
    voyages_matches c = VOYAGES.filter (fun v => match_voyage v c) := by
  unfold voyages_matches
  rw [foldl_snoc_filter]
  simp

/-! ## Claim theorems -/

/-- Claim C1: the matcher accepts an offer iff, for every criterion key whose
value in the criteria map is known (`some`), the offer flag for that key
equals that value; unknown keys impose no constraint, and in particular for
the all-unknown criteria map every one of the five catalog offers matches. -/
theorem matcher_iff_known_criteria :
    (∀ (c : Criteres) (v : Voyage),
        match_voyage v c = true ↔
          ∀ (k : Critere) (b : Bool), c.get k = some b → v.flag k = b) ∧
    VOYAGES.all (fun v => match_voyage v allUnknown) = true := by
  constructor
  · intro c v
    rw [match_voyage_iff]
    constructor
    · intro h k b hb
      exact (matchCritere_iff (v.flag k) (c.get k)).mp (h k) b hb
    · intro h k
      exact (matchCritere_iff (v.flag k) (c.get k)).mpr (fun b hb => h k b hb)
  · decide

/-- Claim C7 counterexample: the message "je veux la plage merci" contains
the politeness phrase "merci" only at its end — it neither equals nor starts
with any entry of the greeting set — yet `detect_salutation` classifies it
as a greeting, so greeting classification is not restricted to messages that
equal or start with a phrase of the set. -/
theorem greeting_substring_cex :
    detect_salutation "je veux la plage merci" = true ∧
    salutations.all
      (fun e => !(charsLead e.data (lowerStrip "je veux la plage merci"))) = true := by
  decide

/-- Claim C7 (amended): a message is classified as a greeting iff its
lowered, stripped form has fewer than 30 characters and contains an entry of
the closed greeting/politeness set as a substring anywhere in the message —
containment in the middle or at the end also counts. -/
theorem greeting_contains_anywhere (message : String) :
    detect_salutation message = true ↔
      ((lowerStrip message).length < 30 ∧
        ∃ e ∈ salutations, ∃ pre post : List Char,
          lowerStrip message = pre ++ e.data ++ post) := by
  unfold detect_salutation
  simp only [Bool.and_eq_true, decide_eq_true_eq, List.any_eq_true, containsWord,
    charsContains_iff]

/-- Claim C9: for every criteria map, the proposal list built by the phase 5
matching loop is exactly the catalog filtered by the match predicate: an
order-preserving, duplicate-free sublist of the five-offer catalog whose
head, when it exists, is the earliest matching offer in catalog order. -/
theorem proposals_are_filtered_catalog (c : Criteres) :
    voyages_matches c = VOYAGES.filter (fun v => match_voyage v c) ∧
    (voyages_matches c).Sublist VOYAGES ∧
    (voyages_matches c).Nodup ∧
    (voyages_matches c).head? = VOYAGES.find? (fun v => match_voyage v c) := by
  refine ⟨matches_eq_filter c, ?_, ?_, ?_⟩
  · rw [matches_eq_filter c]
    exact List.filter_sublist _
  · rw [matches_eq_filter c]
    exact catalogNodup.filter _
  · rw [matches_eq_filter c]
    exact filter_head_eq_find _ _

/-! ## Pipeline reduction lemmas -/

lemma process_message_suite (o : Oracles) (s : State)
    (h0 : o.initOk = true)
    (h1 : detect_salutation s.dernier_message_utilisateur = false)
    (h2 : detect_question_info s.dernier_message_utilisateur = "")
    (h3 : detect_hors_contexte s.dernier_message_utilisateur = false) :
    process_message o s = suiteExtraction o s := by
  simp [process_message, h0, h1, h2, h3]

lemma suite_clarification (o : Oracles) (s : State)
    (h3 : detect_hors_contexte s.dernier_message_utilisateur = false)
    (hg1 : (phase3 o s).2.1 = false)
    (hg2 : anySome (phase3 o s).1 = false) :
    suiteExtraction o s =
      { s with criteres := (phase3 o s).1, erreur_ia := (phase3 o s).2.2,
               dernier_message_ia := FALLBACK_CLARIFICATION, done := true } := by
  simp [suiteExtraction, hg1, hg2, h3]

lemma suite_phase56 (o : Oracles) (s : State)
    (hg : ((phase3 o s).2.1 || anySome (phase3 o s).1) = true) :
    suiteExtraction o s = phase56 o s (phase3 o s).1 (phase3 o s).2.2 := by
  have h : (!(phase3 o s).2.1 && !(anySome (phase3 o s).1)) = false := by
    cases hA : (phase3 o s).2.1 <;> cases hB : anySome (phase3 o s).1 <;> simp_all
  simp [suiteExtraction, h]

lemma phase3_some (o : Oracles) (s : State) (ext : Criteres)
    (hm : (s.dernier_message_utilisateur != "") = true)
    (h3 : detect_hors_contexte s.dernier_message_utilisateur = false)
    (he : o.extraction = some ext) :
    phase3 o s = (applyExtraction s.criteres ext, anySome ext, s.erreur_ia) := by
  simp [phase3, hm, h3, he]

lemma criteres_final (o : Oracles) (s : State)
    (h0 : o.initOk = true)
    (h1 : detect_salutation s.dernier_message_utilisateur = false)
    (h2 : detect_question_info s.dernier_message_utilisateur = "")
    (h3 : detect_hors_contexte s.dernier_message_utilisateur = false) :
    (process_message o s).criteres = (phase3 o s).1 := by
  rw [process_message_suite o s h0 h1 h2 h3]
  simp only [suiteExtraction]
  split
  · split <;> rfl
  · rfl

/-! ## Concrete inputs used by counterexamples and witnesses -/

/-- Extraction result: only montagne = true. -/
def extMontagne : Criteres := { allUnknown with montagne := some true }

/-- Extraction result: only plage = true. -/
def extPlage : Criteres := { allUnknown with plage := some true }

/-- Extraction result: plage = true and montagne = true (Scenario E). -/
def extPlageMontagne : Criteres :=
  { allUnknown with plage := some true, montagne := some true }

/-- Prior criteria carried over from an earlier turn: plage = true. -/
def cPlageTrue : Criteres := { allUnknown with plage := some true }

def oC2 : Oracles :=
  { initOk := true, extraction := some extMontagne, genSal := none, gen6 := none }

def sC2 : State :=
  { dernier_message_utilisateur := "Je veux la montagne", criteres := cPlageTrue }

def oC3 : Oracles :=
  { initOk := true, extraction := some extPlage, genSal := none, gen6 := none }

def sC3 : State := { dernier_message_utilisateur := "Je veux la plage" }

def sOui : State := { dernier_message_utilisateur := "oui" }

def oOuiA : Oracles :=
  { initOk := true, extraction := some extPlage, genSal := none, gen6 := none }

def oOuiB : Oracles :=
  { initOk := true, extraction := some allUnknown, genSal := none, gen6 := none }

def oC5 : Oracles :=
  { initOk := true, extraction := some extMontagne, genSal := none, gen6 := none }

def sC5 : State := { dernier_message_utilisateur := "Je veux la montagne" }

def oC5w : Oracles :=
  { initOk := true, extraction := some extPlageMontagne, genSal := none, gen6 := none }

def sC5w : State := { dernier_message_utilisateur := "plage et montagne" }

def oC6 : Oracles :=
  { initOk := true, extraction := some allUnknown,
    genSal := some "réponse salutation générée", gen6 := some "réponse générée" }

def sC6 : State :=
  { dernier_message_utilisateur := "srrrrzzzhdj", criteres := cPlageTrue,
    voyages_proposes := VOYAGES.take 1, derniers_voyages_proposes := VOYAGES.take 1 }

def oC8 : Oracles :=
  { initOk := true, extraction := some extMontagne, genSal := none, gen6 := none }

def sC8 : State := { dernier_message_utilisateur := "Je veux la montagne" }

def oC10 : Oracles :=
  { initOk := true, extraction := some allUnknown, genSal := none,
    gen6 := some "réponse du collaborateur" }

def sC10 : State := { dernier_message_utilisateur := "je veux partir ailleurs" }

/-- Count of the geographic criteria {plage, montagne, ville} set to true. -/
def geoTrueCount (c : Criteres) : Nat :=
  (if c.plage = some true then 1 else 0) +
    (if c.montagne = some true then 1 else 0) +
    (if c.ville = some true then 1 else 0)

/-- Claim C2 counterexample: the prior turn's criteria hold plage = true and
the extraction of "Je veux la montagne" returns only montagne = true; the
claim's reset law predicts the final criteria equal the extraction applied
to a fresh all-unknown map (plage unknown), but the turn ends with plage
still true — per-turn criteria inherit the previous turn's values. -/
theorem reset_law_cex :
    (process_message oC2 sC2).criteres ≠ applyExtraction allUnknown extMontagne ∧
    (process_message oC2 sC2).criteres.plage = some true := by
  decide

/-- Claim C2 (amended): there is no reset step — for a message routed to
extraction whose extraction succeeds, the non-unknown extracted values are
merged into the prior turn's criteria map in place, and every key the
extractor left unknown keeps its value from the prior turn. -/
theorem extraction_merges_prior_criteria (o : Oracles) (s : State) (ext : Criteres)
    (h0 : o.initOk = true)
    (h1 : detect_salutation s.dernier_message_utilisateur = false)
    (h2 : detect_question_info s.dernier_message_utilisateur = "")
    (h3 : detect_hors_contexte s.dernier_message_utilisateur = false)
    (hm : (s.dernier_message_utilisateur != "") = true)
    (he : o.extraction = some ext) :
    (process_message o s).criteres = applyExtraction s.criteres ext ∧
    ∀ k : Critere, ext.get k = none →
      (process_message o s).criteres.get k = s.criteres.get k := by
  have hc : (process_message o s).criteres = applyExtraction s.criteres ext := by
    have h := criteres_final o s h0 h1 h2 h3
    rw [phase3_some o s ext hm h3 he] at h
    exact h
  refine ⟨hc, ?_⟩
  intro k hk
  rw [hc]
  cases k <;>
    (simp only [Criteres.get] at hk ⊢; simp [applyExtraction, mergeVal, hk])

theorem extraction_merges_prior_criteria_witness :
    (oC2.initOk = true ∧
      detect_salutation sC2.dernier_message_utilisateur = false ∧
      detect_question_info sC2.dernier_message_utilisateur = "" ∧
      detect_hors_contexte sC2.dernier_message_utilisateur = false ∧
      (sC2.dernier_message_utilisateur != "") = true ∧
      oC2.extraction = some extMontagne) ∧
    ((process_message oC2 sC2).criteres = applyExtraction sC2.criteres extMontagne ∧
      ∀ k : Critere, extMontagne.get k = none →
        (process_message oC2 sC2).criteres.get k = sC2.criteres.get k) :=
  ⟨⟨rfl, by decide, by decide, by decide, by decide, rfl⟩,
    extraction_merges_prior_criteria oC2 sC2 extMontagne rfl (by decide) (by decide)
      (by decide) (by decide) rfl⟩

/-- Claim C3 counterexample: the extraction of "Je veux la plage" makes
exactly one geographic criterion true (plage), yet after the turn montagne
and ville are still unknown, not forced to false — no geographic
exclusivity step exists in the pipeline. -/
theorem geo_exclusivity_cex :
    geoTrueCount (process_message oC3 sC3).criteres = 1 ∧
    (process_message oC3 sC3).criteres.plage = some true ∧
    (process_message oC3 sC3).criteres.montagne ≠ some false ∧
    (process_message oC3 sC3).criteres.ville ≠ some false := by
  decide

/-- Claim C3 (amended): the pipeline applies no geographic-exclusivity step:
even when, after applying extraction to the prior criteria, exactly one of
{plage, montagne, ville} is true, the criteria map passes through the rest
of the turn unchanged — the other two geographic keys keep their merged
values instead of being forced to false. -/
theorem no_geo_exclusivity_enforced (o : Oracles) (s : State) (ext : Criteres)
    (h0 : o.initOk = true)
    (h1 : detect_salutation s.dernier_message_utilisateur = false)
    (h2 : detect_question_info s.dernier_message_utilisateur = "")
    (h3 : detect_hors_contexte s.dernier_message_utilisateur = false)
    (hm : (s.dernier_message_utilisateur != "") = true)
    (he : o.extraction = some ext)
    (_hone : geoTrueCount (applyExtraction s.criteres ext) = 1) :
    (process_message o s).criteres = applyExtraction s.criteres ext := by
  have h := criteres_final o s h0 h1 h2 h3
  rw [phase3_some o s ext hm h3 he] at h
  exact h

theorem no_geo_exclusivity_enforced_witness :
    (oC3.initOk = true ∧
      detect_salutation sC3.dernier_message_utilisateur = false ∧
      detect_question_info sC3.dernier_message_utilisateur = "" ∧
      detect_hors_contexte sC3.dernier_message_utilisateur = false ∧
      (sC3.dernier_message_utilisateur != "") = true ∧
      oC3.extraction = some extPlage ∧
      geoTrueCount (applyExtraction sC3.criteres extPlage) = 1) ∧
    (process_message oC3 sC3).criteres = applyExtraction sC3.criteres extPlage :=
  ⟨⟨rfl, by decide, by decide, by decide, by decide, rfl, by decide⟩,
    no_geo_exclusivity_enforced oC3 sC3 extPlage rfl (by decide) (by decide)
      (by decide) (by decide) rfl (by decide)⟩

/-- Claim C4 counterexample: there is no confirmation shortcut — the
affirmation message "oui" is dispatched to the extraction phase, and the
turn's outcome depends on the extraction collaborator's answer (two oracles
differing only in the extraction response yield different final states), so
extraction is invoked on an affirmation; the `State` record also carries no
last-proposed-trip identifier, only the `derniers_voyages_proposes` list. -/
theorem confirmation_shortcut_cex :
    dispatch true "oui" = Branch.extractionSuite ∧
    process_message oOuiA sOui ≠ process_message oOuiB sOui := by
  decide

/-- Claim C4 (amended): the pipeline has no confirmation shortcut and no
last-proposed-trip identifier: the affirmation "oui" matches none of the
pre-extraction branches and is dispatched to the extraction pipeline, and
when the match list is non-empty the turn stores the full list of proposed
offers in `derniers_voyages_proposes` rather than a single identifier. -/
theorem affirmation_routes_to_extraction (o : Oracles) (s : State)
    (h0 : o.initOk = true)
    (h1 : detect_salutation s.dernier_message_utilisateur = false)
    (h2 : detect_question_info s.dernier_message_utilisateur = "")
    (h3 : detect_hors_contexte s.dernier_message_utilisateur = false)
    (h4 : ((phase3 o s).2.1 || anySome (phase3 o s).1) = true)
    (h5 : (voyages_matches (phase3 o s).1).isEmpty = false) :
    dispatch true "oui" = Branch.extractionSuite ∧
    (process_message o s).derniers_voyages_proposes = voyages_matches (phase3 o s).1 := by
  refine ⟨by decide, ?_⟩
  rw [process_message_suite o s h0 h1 h2 h3, suite_phase56 o s h4]
  simp [phase56, h5]

theorem affirmation_routes_to_extraction_witness :
    (oOuiA.initOk = true ∧
      detect_salutation sOui.dernier_message_utilisateur = false ∧
      detect_question_info sOui.dernier_message_utilisateur = "" ∧
      detect_hors_contexte sOui.dernier_message_utilisateur = false ∧
      ((phase3 oOuiA sOui).2.1 || anySome (phase3 oOuiA sOui).1) = true ∧
      (voyages_matches (phase3 oOuiA sOui).1).isEmpty = false) ∧
    (dispatch true "oui" = Branch.extractionSuite ∧
      (process_message oOuiA sOui).derniers_voyages_proposes =
        voyages_matches (phase3 oOuiA sOui).1) :=
  ⟨⟨rfl, by decide, by decide, by decide, by decide, by decide⟩,
    affirmation_routes_to_extraction oOuiA sOui rfl (by decide) (by decide) (by decide)
      (by decide) (by decide)⟩

/-- Claim C5 counterexample: with only montagne = true, three catalog offers
match and all three are stored as the proposals of the turn — the pipeline
does not select exactly one offer by any scoring, and no lexicographic
ranking exists in the code. -/
theorem scorer_selection_cex :
    (process_message oC5 sC5).voyages_proposes.map (fun v => v.id) =
      ["LOZ-001", "CHAM-SPA", "CHAM-SKI"] ∧
    (process_message oC5 sC5).voyages_proposes.length ≠ 1 := by
  decide

/-- Claim C5 (amended): when the extraction pipeline is reached with at
least one known criterion, the proposal list is exactly the catalog
filtered by the matcher in catalog order (no scoring or tie-break: all
matching offers are proposed, the first being the earliest catalog match);
when the filter is empty the reply is the no-match one — the generation
collaborator's answer or, on failure, the fixed no-match template. -/
theorem matcher_proposes_all_matches (o : Oracles) (s : State)
    (h0 : o.initOk = true)
    (h1 : detect_salutation s.dernier_message_utilisateur = false)
    (h2 : detect_question_info s.dernier_message_utilisateur = "")
    (h3 : detect_hors_contexte s.dernier_message_utilisateur = false)
    (h4 : ((phase3 o s).2.1 || anySome (phase3 o s).1) = true) :
    (process_message o s).voyages_proposes =
      VOYAGES.filter (fun v => match_voyage v (phase3 o s).1) ∧
    ((process_message o s).voyages_proposes.isEmpty = true →
      (process_message o s).dernier_message_ia =
        (match o.gen6 with
         | some r => r
         | none => FALLBACK_SANS_VOYAGES)) := by
  rw [process_message_suite o s h0 h1 h2 h3, suite_phase56 o s h4]
  constructor
  · simp [phase56, matches_eq_filter]
  · intro hempty
    have he : (voyages_matches (phase3 o s).1).isEmpty = true := by
      simpa [phase56] using hempty
    cases hg : o.gen6 <;> simp [phase56, he, hg]

theorem matcher_proposes_all_matches_witness :
    (oC5w.initOk = true ∧
      detect_salutation sC5w.dernier_message_utilisateur = false ∧
      detect_question_info sC5w.dernier_message_utilisateur = "" ∧
      detect_hors_contexte sC5w.dernier_message_utilisateur = false ∧
      ((phase3 oC5w sC5w).2.1 || anySome (phase3 oC5w sC5w).1) = true) ∧
    ((process_message oC5w sC5w).voyages_proposes =
        VOYAGES.filter (fun v => match_voyage v (phase3 oC5w sC5w).1) ∧
      ((process_message oC5w sC5w).voyages_proposes.isEmpty = true →
        (process_message oC5w sC5w).dernier_message_ia =
          (match oC5w.gen6 with
           | some r => r
           | none => FALLBACK_SANS_VOYAGES))) :=
  ⟨⟨rfl, by decide, by decide, by decide, by decide⟩,
    matcher_proposes_all_matches oC5w sC5w rfl (by decide) (by decide) (by decide)
      (by decide)⟩

/-- Claim C6 counterexample: the off-topic message "srrrrzzzhdj" arrives
with criteria plage = true and a non-empty proposal list carried in state;
after the off-topic branch the criteria map is unchanged (not reset to
all-unknown) and the proposals are not cleared. -/
theorem offtopic_reset_cex :
    (process_message oC6 sC6).criteres ≠ allUnknown ∧
    (process_message oC6 sC6).voyages_proposes ≠ [] := by
  decide

/-- Claim C6 (amended): for a message that reaches the off-topic check (it
is not captured by the earlier greeting or practical-question branches) and
triggers an off-topic heuristic, the turn returns the fixed clarify reply
(which names five criteria — plage, montagne, ville, sport, détente — not
six) and leaves every other state field unchanged: the criteria map and the
proposal lists are neither reset nor cleared, and extraction is never
invoked (the result does not depend on any collaborator oracle). -/
theorem offtopic_branch_fixed_reply (o : Oracles) (s : State)
    (h0 : o.initOk = true)
    (h1 : detect_salutation s.dernier_message_utilisateur = false)
    (h2 : detect_question_info s.dernier_message_utilisateur = "")
    (h3 : detect_hors_contexte s.dernier_message_utilisateur = true) :
    process_message o s =
      { s with dernier_message_ia := MSG_HORS_CONTEXTE, done := true } := by
  simp [process_message, h0, h1, h2, h3]

theorem offtopic_branch_fixed_reply_witness :
    (oC6.initOk = true ∧
      detect_salutation sC6.dernier_message_utilisateur = false ∧
      detect_question_info sC6.dernier_message_utilisateur = "" ∧
      detect_hors_contexte sC6.dernier_message_utilisateur = true) ∧
    process_message oC6 sC6 =
      { sC6 with dernier_message_ia := MSG_HORS_CONTEXTE, done := true } :=
  ⟨⟨rfl, by decide, by decide, by decide⟩,
    offtopic_branch_fixed_reply oC6 sC6 rfl (by decide) (by decide) (by decide)⟩

/-- Claim C8: whenever the turn reaches the response-generation phase and
the generation collaborator fails, the turn still completes (`done` set)
with the agent reply equal to the deterministic local template — one
template built from the matched offers' names when the match list is
non-empty, the fixed no-match template when it is empty — and the failure
sets no error flag (`erreur_ia` keeps the value decided by extraction). -/
theorem generation_failure_fallback (o : Oracles) (s : State)
    (h0 : o.initOk = true)
    (h1 : detect_salutation s.dernier_message_utilisateur = false)
    (h2 : detect_question_info s.dernier_message_utilisateur = "")
    (h3 : detect_hors_contexte s.dernier_message_utilisateur = false)
    (h4 : ((phase3 o s).2.1 || anySome (phase3 o s).1) = true)
    (hg : o.gen6 = none) :
    (process_message o s).dernier_message_ia =
      (if (voyages_matches (phase3 o s).1).isEmpty then FALLBACK_SANS_VOYAGES
       else fallbackAvecVoyages (voyages_matches (phase3 o s).1)) ∧
    (process_message o s).done = true ∧
    (process_message o s).erreur_ia = (phase3 o s).2.2 := by
  rw [process_message_suite o s h0 h1 h2 h3, suite_phase56 o s h4]
  refine ⟨?_, rfl, rfl⟩
  simp [phase56, hg]

theorem generation_failure_fallback_witness :
    (oC8.initOk = true ∧
      detect_salutation sC8.dernier_message_utilisateur = false ∧
      detect_question_info sC8.dernier_message_utilisateur = "" ∧
      detect_hors_contexte sC8.dernier_message_utilisateur = false ∧
      ((phase3 oC8 sC8).2.1 || anySome (phase3 oC8 sC8).1) = true ∧
      oC8.gen6 = none) ∧
    ((process_message oC8 sC8).dernier_message_ia =
        (if (voyages_matches (phase3 oC8 sC8).1).isEmpty then FALLBACK_SANS_VOYAGES
         else fallbackAvecVoyages (voyages_matches (phase3 oC8 sC8).1)) ∧
      (process_message oC8 sC8).done = true ∧
      (process_message oC8 sC8).erreur_ia = (phase3 oC8 sC8).2.2) :=
  ⟨⟨rfl, by decide, by decide, by decide, by decide, rfl⟩,
    generation_failure_fallback oC8 sC8 rfl (by decide) (by decide) (by decide)
      (by decide) rfl⟩

/-- Claim C10: whenever the clarification branch is reached with a message
that does not trigger the off-topic heuristic (nothing extracted this turn
and no criterion already known), the reply is always the fixed fallback
clarification template and the turn completes, for every oracle — in the
source the branch's generation attempt evaluates the undefined name
`PROMPT_CLARIFICATION`, so it raises `NameError` before any collaborator
call and the bare `except` installs the template; the generation
collaborator is never successfully consulted on this path (the conclusion
does not depend on `o.genSal` or `o.gen6`). -/
theorem clarification_always_template (o : Oracles) (s : State)
    (h0 : o.initOk = true)
    (h1 : detect_salutation s.dernier_message_utilisateur = false)
    (h2 : detect_question_info s.dernier_message_utilisateur = "")
    (h3 : detect_hors_contexte s.dernier_message_utilisateur = false)
    (hg1 : (phase3 o s).2.1 = false)
    (hg2 : anySome (phase3 o s).1 = false) :
    (process_message o s).dernier_message_ia = FALLBACK_CLARIFICATION ∧
    (process_message o s).done = true ∧
    (process_message o s).voyages_proposes = s.voyages_proposes := by
  rw [process_message_suite o s h0 h1 h2 h3, suite_clarification o s h3 hg1 hg2]
  exact ⟨rfl, rfl, rfl⟩

theorem clarification_always_template_witness :
    (oC10.initOk = true ∧
      detect_salutation sC10.dernier_message_utilisateur = false ∧
      detect_question_info sC10.dernier_message_utilisateur = "" ∧
      detect_hors_contexte sC10.dernier_message_utilisateur = false ∧
      (phase3 oC10 sC10).2.1 = false ∧
      anySome (phase3 oC10 sC10).1 = false) ∧
    ((process_message oC10 sC10).dernier_message_ia = FALLBACK_CLARIFICATION ∧
      (process_message oC10 sC10).done = true ∧
      (process_message oC10 sC10).voyages_proposes = sC10.voyages_proposes) :=
  ⟨⟨rfl, by decide, by decide, by decide, by decide, by decide⟩,
    clarification_always_template oC10 sC10 rfl (by decide) (by decide) (by decide)
      (by decide) (by decide)⟩
